import Mathlib

/-!
Shallow embedding of `src/NwUtilties.py` (class `NwUtilities`), covering the
connection-lifecycle methods (`junos_open_connection`, `junos_close_connection`,
`jumphost_connect`, `jumphost_disconnect`, `jumphost_transport_connect`,
`jumphost_transport_disconnect`), the SCP upload helper
(`copy_file_local_to_remote`) and the notification helper (`send_email`).

Modelling conventions:
* Third-party connection handles (PyEZ `Device`, paramiko `SSHClient`) are
  identified by `Nat` ids, allocated from a counter `nextId` each time the
  Python code constructs a client object.
* The manager's mutable slots `_junos_device`, `_jumphost_client`,
  `_target_client` become `Option Nat` fields of `NwState`.
* Every call into a third-party library may raise in Python; a `World` oracle
  fixes the outcome of each such call (connects keyed by the client id being
  connected, closes keyed by the id being closed, the channel open, the SCP
  transfer, SMTP delivery, and local filesystem existence).
* Exceptions become `Except Err`; a Python function that catches every
  exception internally returns `.ok` in every branch.
* Log statements and external side effects are recorded in an event list, so
  that properties such as "no network operation is attempted" and "logs a
  warning" are statable.
-/

namespace NwUtilities

/-- Exceptions raised by the embedded methods and by the third-party calls
they delegate to. -/
inductive Err where
  /-- Python `ValueError` with its message. -/
  | valueError (msg : String)
  /-- PyEZ `ConnectAuthError`. -/
  | connectAuthError
  /-- PyEZ `ConnectError`. -/
  | connectError
  /-- paramiko `AuthenticationException`. -/
  | authenticationException
  /-- paramiko `SSHException`. -/
  | sshException
  /-- failure of `transport.open_channel`. -/
  | channelError
  /-- exception raised by `close()` on the client with this id. -/
  | closeError (id : Nat)
  /-- Python `FileNotFoundError` with its message. -/
  | fileNotFoundError (msg : String)
  /-- exception raised by `scp.put`. -/
  | scpError
  /-- exception raised during SMTP delivery. -/
  | smtpError
  deriving Repr, DecidableEq

/-- Observable events: log lines (tagged by level and message) and the
externally visible operations the wrapper performs. -/
inductive Ev where
  | logInfo (msg : String)
  | logWarning (msg : String)
  | logError (msg : String)
  /-- a network connect call on the client with this id. -/
  | connectAttempt (id : Nat)
  /-- the `open_channel` call on the jumphost transport. -/
  | channelOpen
  /-- a `close()` call on the client with this id. -/
  | closeAttempt (id : Nat)
  /-- the `scp.put(src, dst)` call. -/
  | scpPut (src dst : String)
  deriving Repr, DecidableEq

/-- The manager's mutable state: the three cached-handle slots set up in
`__init__` (`_junos_device`, `_jumphost_client`, `_target_client`) plus the
id-allocation counter of the model. -/
structure NwState where
  junosDevice : Option Nat
  jumphostClient : Option Nat
  targetClient : Option Nat
  nextId : Nat
  deriving Repr, DecidableEq

/-- The state right after `__init__`: all three slots empty. -/
def initState : NwState :=
  { junosDevice := none, jumphostClient := none, targetClient := none, nextId := 0 }

/-- Environment oracle fixing the outcome of every call into a third-party
library or the local filesystem. -/
structure World where
  /-- outcome of `Device(...).open()`: `none` is success, `some e` raises `e`. -/
  junosConnect : Option Err
  /-- outcome of `SSHClient.connect` for the client with the given id. -/
  sshConnect : Nat → Option Err
  /-- whether `transport.open_channel` succeeds. -/
  openChannelOk : Bool
  /-- whether `close()` on the client with the given id succeeds. -/
  closeOk : Nat → Bool
  /-- whether `scp.put` succeeds. -/
  scpOk : Bool
  /-- whether `os.path.exists` holds for a local path. -/
  pathExists : String → Bool
  /-- whether SMTP delivery succeeds. -/
  smtpOk : Bool

/-- Result of one method call: the value returned or exception raised, the
manager state after the call, and the events emitted during it. -/
structure Out (α : Type) where
  result : Except Err α
  state : NwState
  events : List Ev
  deriving Repr

/-- Python truthiness of an optional string argument: `not x` holds when the
argument is absent (`None`) or the empty string. -/
def pyFalsyS : Option String → Bool
  | none => true
  | some s => s.isEmpty

/-- Python truthiness of an optional list argument: `not x` holds when the
argument is absent (`None`) or the empty list. -/
def pyFalsyL : Option (List String) → Bool
  | none => true
  | some l => l.isEmpty

/-- Embeds `junos_open_connection` (src/NwUtilties.py:161-204). If a device is
cached it is returned unchanged; otherwise a fresh `Device` is constructed and
opened, cached on success, and every failure is logged and re-raised. The
`hostname`/`username`/`password`/`port` arguments only feed the third-party
call and log text, which the `World` oracle abstracts. -/
def junos_open_connection (w : World) (s : NwState) : Out Nat :=
  match s.junosDevice with
  | some d => ⟨.ok d, s, [.logInfo "Junos connection already open"]⟩
  | none =>
      let id := s.nextId
      match w.junosConnect with
      | none =>
          ⟨.ok id, { s with junosDevice := some id, nextId := id + 1 },
            [.connectAttempt id, .logInfo "Successfully connected"]⟩
      | some e =>
          ⟨.error e, { s with nextId := id + 1 },
            [.connectAttempt id, .logError "Connection failed"]⟩

/-- Embeds `junos_close_connection` (src/NwUtilties.py:206-219). The whole
body is wrapped in try/except, so the method never raises. Note that
`self._junos_device = None` sits inside the try block after `close()`: when
the close raises, the slot is left untouched. -/
def junos_close_connection (w : World) (s : NwState) : Out Unit :=
  match s.junosDevice with
  | some d =>
      if w.closeOk d then
        ⟨.ok (), { s with junosDevice := none },
          [.closeAttempt d, .logInfo "Connection closed"]⟩
      else
        ⟨.ok (), s, [.closeAttempt d, .logError "Error closing Junos connection"]⟩
  | none =>
      ⟨.ok (), s, [.logWarning "No active Junos connection to close"]⟩

/-- Embeds `jumphost_connect` (src/NwUtilties.py:247-294). Idempotent on the
cached `_jumphost_client`; otherwise constructs a fresh `SSHClient`, connects
it, caches it on success, and logs and re-raises every failure. -/
def jumphost_connect (w : World) (s : NwState) : Out Nat :=
  match s.jumphostClient with
  | some j => ⟨.ok j, s, [.logInfo "Jumphost connection already open"]⟩
  | none =>
      let id := s.nextId
      match w.sshConnect id with
      | none =>
          ⟨.ok id, { s with jumphostClient := some id, nextId := id + 1 },
            [.connectAttempt id, .logInfo "Successfully connected to jumphost"]⟩
      | some e =>
          ⟨.error e, { s with nextId := id + 1 },
            [.connectAttempt id, .logError "Jumphost connection failed"]⟩

/-- Embeds `jumphost_disconnect` (src/NwUtilties.py:296-308). Never raises;
`self._jumphost_client = None` sits inside the try block after `close()`, so a
raising close leaves the slot untouched. -/
def jumphost_disconnect (w : World) (s : NwState) : Out Unit :=
  match s.jumphostClient with
  | some j =>
      if w.closeOk j then
        ⟨.ok (), { s with jumphostClient := none },
          [.closeAttempt j, .logInfo "Jumphost connection closed"]⟩
      else
        ⟨.ok (), s, [.closeAttempt j, .logError "Error closing jumphost connection"]⟩
  | none =>
      ⟨.ok (), s, [.logWarning "No active jumphost connection to close"]⟩

/-- Embeds the `except` block of `jumphost_transport_connect`
(src/NwUtilties.py:397-404). `orig` is the exception that entered the block;
`targetLocal`/`jumphostLocal` say which of the local variables `target` /
`jumphost` were bound when it was raised. The close calls are bare statements
inside the `except` block: a raising close propagates its own exception
(replacing `orig`) and skips everything after it, including the other close
and the final bare `raise`. -/
def tunnelCleanup (w : World) (orig : Err) (targetLocal jumphostLocal : Option Nat) :
    Except Err (Nat × Nat) × List Ev :=
  match targetLocal with
  | some t =>
      if w.closeOk t then
        match jumphostLocal with
        | some j =>
            if w.closeOk j then (.error orig, [.closeAttempt t, .closeAttempt j])
            else (.error (.closeError j), [.closeAttempt t, .closeAttempt j])
        | none => (.error orig, [.closeAttempt t])
      else
        (.error (.closeError t), [.closeAttempt t])
  | none =>
      match jumphostLocal with
      | some j =>
          if w.closeOk j then (.error orig, [.closeAttempt j])
          else (.error (.closeError j), [.closeAttempt j])
      | none => (.error orig, [])

/-- Embeds `jumphost_transport_connect` (src/NwUtilties.py:310-404). Order of
checks follows the source: the `dst_host` emptiness check comes first, then the
cache check (which requires both `_target_client` and `_jumphost_client`), then
the three construction steps: connect the jumphost client, open the
direct-tcpip channel, connect the target client through it. The two slots are
assigned only after the target connect succeeds. The local `jumphost` client is
constructed before any fallible call, and the local `target` client only after
the channel is open, which determines what the `except`-block cleanup sees in
`locals()`. -/
def jumphost_transport_connect (w : World) (s : NwState) (dst_host : Option String) :
    Out (Nat × Nat) :=
  if pyFalsyS dst_host then
    ⟨.error (.valueError "dst_host must be set for jumphost transport connection"), s, []⟩
  else
    match s.targetClient, s.jumphostClient with
    | some t, some j =>
        ⟨.ok (t, j), s, [.logInfo "Jumphost transport connection already open"]⟩
    | _, _ =>
        let jumpId := s.nextId
        match w.sshConnect jumpId with
        | some e =>
            let c := tunnelCleanup w e none (some jumpId)
            ⟨c.1, { s with nextId := jumpId + 1 },
              [.connectAttempt jumpId,
               .logError "Failed to establish jumphost transport connection"] ++ c.2⟩
        | none =>
            if w.openChannelOk then
              let targetId := jumpId + 1
              match w.sshConnect targetId with
              | some e =>
                  let c := tunnelCleanup w e (some targetId) (some jumpId)
                  ⟨c.1, { s with nextId := targetId + 1 },
                    [.connectAttempt jumpId, .channelOpen, .connectAttempt targetId,
                     .logError "Failed to establish jumphost transport connection"] ++ c.2⟩
              | none =>
                  ⟨.ok (targetId, jumpId),
                    { s with targetClient := some targetId, jumphostClient := some jumpId,
                             nextId := targetId + 1 },
                    [.connectAttempt jumpId, .channelOpen, .connectAttempt targetId,
                     .logInfo "Successfully connected to target device"]⟩
            else
              let c := tunnelCleanup w .channelError none (some jumpId)
              ⟨c.1, { s with nextId := jumpId + 1 },
                [.connectAttempt jumpId, .channelOpen,
                 .logError "Failed to establish jumphost transport connection"] ++ c.2⟩

/-- Embeds `jumphost_transport_disconnect` (src/NwUtilties.py:406-424). Two
independent best-effort closes, target first; each close that raises is caught
and logged, leaving its slot untouched. There is no `else` branch: when a slot
is empty the method emits nothing for it. -/
def jumphost_transport_disconnect (w : World) (s : NwState) : Out Unit :=
  let targetStep : NwState × List Ev :=
    match s.targetClient with
    | some t =>
        if w.closeOk t then
          ({ s with targetClient := none },
            [.closeAttempt t, .logInfo "Target connection closed"])
        else
          (s, [.closeAttempt t, .logError "Error closing target connection"])
    | none => (s, [])
  let s1 := targetStep.1
  let jumpStep : NwState × List Ev :=
    match s1.jumphostClient with
    | some j =>
        if w.closeOk j then
          ({ s1 with jumphostClient := none },
            [.closeAttempt j, .logInfo "Jumphost connection closed"])
        else
          (s1, [.closeAttempt j, .logError "Error closing jumphost connection"])
    | none => (s1, [])
  ⟨.ok (), jumpStep.1, targetStep.2 ++ jumpStep.2⟩

/-- Embeds `copy_file_local_to_remote` (src/NwUtilties.py:508-555). Empty
source or destination soft-returns `False`; a missing local source raises
`FileNotFoundError` before anything else; otherwise the jumphost connection is
obtained via `jumphost_connect` and `scp.put` runs over its transport, with
every exception from that try block logged and re-raised. `use_jumphost=False`
soft-returns `False`. -/
def copy_file_local_to_remote (w : World) (s : NwState)
    (src_path dst_path : Option String) (use_jumphost : Bool) : Out Bool :=
  if pyFalsyS src_path || pyFalsyS dst_path then
    ⟨.ok false, s, [.logError "Source and destination paths must be provided"]⟩
  else
    let source := src_path.getD ""
    let destination := dst_path.getD ""
    if ¬ w.pathExists source then
      ⟨.error (.fileNotFoundError ("Source file not found: " ++ source)), s, []⟩
    else
      if use_jumphost then
        let conn := jumphost_connect w s
        match conn.result with
        | .ok _ =>
            if w.scpOk then
              ⟨.ok true, conn.state,
                conn.events ++ [.scpPut source destination, .logInfo "Successfully copied"]⟩
            else
              ⟨.error .scpError, conn.state,
                conn.events ++ [.scpPut source destination, .logError "Failed to copy file"]⟩
        | .error e =>
            ⟨.error e, conn.state, conn.events ++ [.logError "Failed to copy file"]⟩
      else
        ⟨.ok false, s, [.logError "Direct SCP not implemented. Use use_jumphost=True"]⟩

/-- Models `os.path.join(attach_path, filename)` for the relative attachment
names the code resolves (src/NwUtilties.py:708). -/
def joinPath (dir file : String) : String := dir ++ "/" ++ file

/-- The validation dictionary of `send_email` (src/NwUtilties.py:650-658): the
five required parameters in source order, paired with their names. -/
def requiredFields (email_from email_to email_subject greeting email_body : Option String) :
    List (String × Option String) :=
  [("email_from", email_from), ("email_to", email_to), ("email_subject", email_subject),
   ("greeting", greeting), ("email_body", email_body)]

/-- The `missing` list of `send_email`: names of the required parameters whose
value is falsy, in dictionary order. -/
def missingFields (email_from email_to email_subject greeting email_body : Option String) :
    List String :=
  ((requiredFields email_from email_to email_subject greeting email_body).filter
    (fun p => pyFalsyS p.2)).map Prod.fst

/-- The attachment loop of `send_email` (src/NwUtilties.py:707-723): for each
filename, resolve it against the attachment directory; attach it when the
resolved path exists, otherwise log a warning and skip it. Returns the attached
filenames and the skipped (warned-about) filenames, each in loop order. -/
def processAttachments (pathExists : String → Bool) (attach_path : String) :
    List String → List String × List String
  | [] => ([], [])
  | f :: rest =>
      let r := processAttachments pathExists attach_path rest
      if pathExists (joinPath attach_path f) then (f :: r.1, r.2) else (r.1, f :: r.2)

/-- Observable outcome of one `send_email` call. -/
structure EmailOutcome where
  /-- the exception the call raises, when it raises. -/
  raised : Option Err
  /-- the boolean return value (meaningful only when `raised = none`). -/
  returned : Bool
  /-- filenames actually attached to the message. -/
  attached : List String
  /-- filenames skipped with a logged warning because the resolved path was missing. -/
  warnedMissing : List String
  /-- whether the SMTP relay accepted the message. -/
  delivered : Bool
  deriving Repr, DecidableEq

/-- Embeds `send_email` (src/NwUtilties.py:604-738). Validation first: when any
of the five required parameters is falsy, a `ValueError` naming all falsy ones
is raised before the message is composed. Otherwise the multipart message is
built, attachments are resolved against `destination_path` (only when both
`attach_list` and `destination_path` are truthy, per `if attachments and
attach_path:`), missing files are warned about and skipped, and the message is
handed to the SMTP relay; a delivery failure is logged and re-raised, success
returns `True`. -/
def send_email (w : World)
    (email_from email_to email_subject email_body greeting : Option String)
    (destination_path : Option String) (attach_list : Option (List String)) :
    EmailOutcome :=
  if pyFalsyS email_from || pyFalsyS email_to || pyFalsyS email_subject ||
      pyFalsyS greeting || pyFalsyS email_body then
    { raised := some (.valueError ("Missing required email parameters: " ++
        String.intercalate ", "
          (missingFields email_from email_to email_subject greeting email_body))),
      returned := false, attached := [], warnedMissing := [], delivered := false }
  else
    let doAttach := !pyFalsyL attach_list && !pyFalsyS destination_path
    let r :=
      if doAttach then
        processAttachments w.pathExists (destination_path.getD "") (attach_list.getD [])
      else ([], [])
    if w.smtpOk then
      { raised := none, returned := true, attached := r.1, warnedMissing := r.2,
        delivered := true }
    else
      { raised := some .smtpError, returned := false, attached := r.1, warnedMissing := r.2,
        delivered := false }

/-- World in which every third-party call succeeds and every local path exists. -/
def allOkWorld : World :=
  { junosConnect := none, sshConnect := fun _ => none, openChannelOk := true,
    closeOk := fun _ => true, scpOk := true, pathExists := fun _ => true, smtpOk := true }

/-- World in which the target connect of the tunnel (client id 1 when starting
from `initState`) raises an authentication failure and closing that client also
raises; everything else succeeds. -/
def tunnelFailWorld : World :=
  { junosConnect := none,
    sshConnect := fun id => if id == 1 then some .authenticationException else none,
    openChannelOk := true, closeOk := fun id => !(id == 1), scpOk := true,
    pathExists := fun _ => true, smtpOk := true }

/-- World in which every `close()` call raises and everything else succeeds. -/
def closeFailWorld : World :=
  { junosConnect := none, sshConnect := fun _ => none, openChannelOk := true,
    closeOk := fun _ => false, scpOk := true, pathExists := fun _ => true, smtpOk := true }

/-- Manager state with a cached tunnel pair: target client 0, jumphost client 1. -/
def cachedPairState : NwState :=
  { junosDevice := none, jumphostClient := some 1, targetClient := some 0, nextId := 2 }

/-- Manager state with only a cached Junos device (client 0). -/
def cachedDeviceState : NwState :=
  { junosDevice := some 0, jumphostClient := none, targetClient := none, nextId := 1 }

/-- Manager state with only a cached jumphost client (client 0). -/
def cachedJumphostState : NwState :=
  { junosDevice := none, jumphostClient := some 0, targetClient := none, nextId := 1 }

/-- World in which no local path exists and everything else succeeds. -/
def noFilesWorld : World :=
  { junosConnect := none, sshConnect := fun _ => none, openChannelOk := true,
    closeOk := fun _ => true, scpOk := true, pathExists := fun _ => false, smtpOk := true }

/-- World in which exactly one local path, "reports/missing.txt", does not
exist, and every network call succeeds. -/
def attachWorld : World :=
  { junosConnect := none, sshConnect := fun _ => none, openChannelOk := true,
    closeOk := fun _ => true, scpOk := true,
    pathExists := fun p => !(p == "reports/missing.txt"), smtpOk := true }

/-- Holds of the log-warning events, used to state that a call logs no warning. -/
def isWarningEv : Ev → Bool
  | .logWarning _ => true
  | _ => false

/-- C5: with an empty (or absent) `dst_host`, `jumphost_transport_connect`
raises `ValueError` immediately: the state is unchanged and no event — in
particular no network operation — occurs, for every world, manager state and
`dst_host` that is `None` or the empty string. -/
theorem c5_empty_dst_host (w : World) (s : NwState) (dst_host : Option String)
    (h : pyFalsyS dst_host = true) :
    jumphost_transport_connect w s dst_host =
      ⟨.error (.valueError "dst_host must be set for jumphost transport connection"), s, []⟩ := by
  simp [jumphost_transport_connect, h]

/-- Witness for C5 at `dst_host = none`, on a fully-cached state, with all
network calls available. -/
theorem c5_empty_dst_host_witness :
    pyFalsyS (none : Option String) = true ∧
    jumphost_transport_connect allOkWorld cachedPairState none =
      ⟨.error (.valueError "dst_host must be set for jumphost transport connection"),
        cachedPairState, []⟩ :=
  ⟨rfl, c5_empty_dst_host allOkWorld cachedPairState none rfl⟩

/-- C8: `copy_file_local_to_remote` returns `False` (raising nothing) when the
source or destination path is empty, and raises `FileNotFoundError` — with
state unchanged and no event, hence before any remote connection — when both
are non-empty but the local source does not exist. -/
theorem c8_copy_validation (w : World) (s : NwState) (src dst : Option String)
    (use_jumphost : Bool) :
    ((pyFalsyS src = true ∨ pyFalsyS dst = true) →
      copy_file_local_to_remote w s src dst use_jumphost =
        ⟨.ok false, s, [.logError "Source and destination paths must be provided"]⟩) ∧
    (pyFalsyS src = false → pyFalsyS dst = false →
      w.pathExists (src.getD "") = false →
      copy_file_local_to_remote w s src dst use_jumphost =
        ⟨.error (.fileNotFoundError ("Source file not found: " ++ src.getD "")), s, []⟩) := by
  constructor
  · rintro (h | h) <;> simp [copy_file_local_to_remote, h]
  · intro h1 h2 h3
    simp [copy_file_local_to_remote, h1, h2, h3]

/-- Witness for C8: empty source soft-returns `False`; a missing source named
"gone" raises `FileNotFoundError` with no event emitted. -/
theorem c8_copy_validation_witness :
    copy_file_local_to_remote allOkWorld initState (some "") (some "d") true =
      ⟨.ok false, initState, [.logError "Source and destination paths must be provided"]⟩ ∧
    copy_file_local_to_remote noFilesWorld initState (some "gone") (some "d") true =
      ⟨.error (.fileNotFoundError "Source file not found: gone"), initState, []⟩ := by
  constructor
  · exact (c8_copy_validation allOkWorld initState (some "") (some "d") true).1 (Or.inl rfl)
  · exact (c8_copy_validation noFilesWorld initState (some "gone") (some "d") true).2
      rfl rfl rfl

/-- Counterexample to C2 as stated: with a tunnel pair already cached
(clients 0 and 1), a second `jumphost_transport_connect` call whose `dst_host`
argument is empty raises `ValueError` instead of returning the cached pair, so
the second call does not return the cached handles "regardless of the
arguments". -/
theorem c2_counterexample :
    cachedPairState.targetClient = some 0 ∧ cachedPairState.jumphostClient = some 1 ∧
    (jumphost_transport_connect allOkWorld cachedPairState none).result =
      .error (.valueError "dst_host must be set for jumphost transport connection") ∧
    (jumphost_transport_connect allOkWorld cachedPairState none).result ≠ .ok (0, 1) := by
  refine ⟨rfl, rfl, rfl, ?_⟩
  intro h
  simp [jumphost_transport_connect, cachedPairState, pyFalsyS] at h

/-- C2 (amended): a repeated `junos_open_connection` or `jumphost_connect`
returns the cached handle unchanged — same state, no construction, only an
"already open" log line — regardless of arguments; a repeated
`jumphost_transport_connect` does the same for the cached pair provided its
`dst_host` argument is non-empty, while an empty `dst_host` makes it raise
`ValueError` despite the cached pair. -/
theorem c2_idempotent_connect (w : World) (s : NwState) :
    (∀ d, s.junosDevice = some d →
      junos_open_connection w s = ⟨.ok d, s, [.logInfo "Junos connection already open"]⟩) ∧
    (∀ j, s.jumphostClient = some j →
      jumphost_connect w s = ⟨.ok j, s, [.logInfo "Jumphost connection already open"]⟩) ∧
    (∀ t j dst_host, s.targetClient = some t → s.jumphostClient = some j →
      pyFalsyS dst_host = false →
      jumphost_transport_connect w s dst_host =
        ⟨.ok (t, j), s, [.logInfo "Jumphost transport connection already open"]⟩) ∧
    (∀ dst_host, pyFalsyS dst_host = true →
      (jumphost_transport_connect w s dst_host).result =
        .error (.valueError "dst_host must be set for jumphost transport connection")) := by
  refine ⟨?_, ?_, ?_, ?_⟩
  · intro d hd; simp [junos_open_connection, hd]
  · intro j hj; simp [jumphost_connect, hj]
  · intro t j dst_host ht hj hdst
    simp [jumphost_transport_connect, hdst, ht, hj]
  · intro dst_host hdst
    simp [jumphost_transport_connect, hdst]

/-- Witness for C2 (amended) on the fully-cached state: the device open, the
jumphost connect and the tunnel connect with a non-empty `dst_host` each return
the cached handles unchanged, and the tunnel connect with `dst_host = none`
raises `ValueError`. -/
theorem c2_idempotent_connect_witness :
    junos_open_connection allOkWorld cachedDeviceState =
      ⟨.ok 0, cachedDeviceState, [.logInfo "Junos connection already open"]⟩ ∧
    jumphost_connect allOkWorld cachedPairState =
      ⟨.ok 1, cachedPairState, [.logInfo "Jumphost connection already open"]⟩ ∧
    jumphost_transport_connect allOkWorld cachedPairState (some "target.example.com") =
      ⟨.ok (0, 1), cachedPairState, [.logInfo "Jumphost transport connection already open"]⟩ ∧
    (jumphost_transport_connect allOkWorld cachedPairState (some "")).result =
      .error (.valueError "dst_host must be set for jumphost transport connection") :=
  ⟨(c2_idempotent_connect allOkWorld cachedDeviceState).1 0 rfl,
   (c2_idempotent_connect allOkWorld cachedPairState).2.1 1 rfl,
   (c2_idempotent_connect allOkWorld cachedPairState).2.2.1 0 1 (some "target.example.com")
     rfl rfl rfl,
   (c2_idempotent_connect allOkWorld cachedPairState).2.2.2 (some "") rfl⟩

/-- Counterexample to C3 as stated: with device client 0 cached and a world in
which the underlying `close()` raises, `junos_close_connection` leaves the
cache slot still holding the session — it is not cleared, contradicting
"clears the cache slot (leaving no cached session)". -/
theorem c3_counterexample :
    (junos_close_connection closeFailWorld cachedDeviceState).state.junosDevice = some 0 ∧
    (junos_close_connection closeFailWorld cachedDeviceState).state.junosDevice ≠ none := by
  refine ⟨rfl, ?_⟩
  intro h
  simp [junos_close_connection, closeFailWorld, cachedDeviceState] at h

/-- C3 (amended): with a device session cached, `junos_close_connection` never
raises and always attempts the underlying close; when that close succeeds the
slot is cleared, but when it raises the error is logged and swallowed and the
slot keeps the session. The same holds for `jumphost_disconnect` with a cached
jumphost session. -/
theorem c3_close_behavior (w : World) (s : NwState) :
    (∀ d, s.junosDevice = some d →
      (junos_close_connection w s).result = .ok () ∧
      Ev.closeAttempt d ∈ (junos_close_connection w s).events ∧
      (w.closeOk d = true →
        (junos_close_connection w s).state = { s with junosDevice := none }) ∧
      (w.closeOk d = false →
        (junos_close_connection w s).state = s ∧
        Ev.logError "Error closing Junos connection" ∈ (junos_close_connection w s).events)) ∧
    (∀ j, s.jumphostClient = some j →
      (jumphost_disconnect w s).result = .ok () ∧
      Ev.closeAttempt j ∈ (jumphost_disconnect w s).events ∧
      (w.closeOk j = true →
        (jumphost_disconnect w s).state = { s with jumphostClient := none }) ∧
      (w.closeOk j = false →
        (jumphost_disconnect w s).state = s ∧
        Ev.logError "Error closing jumphost connection" ∈ (jumphost_disconnect w s).events)) := by
  constructor
  · intro d hd
    by_cases hc : w.closeOk d <;>
      simp [junos_close_connection, hd, hc]
  · intro j hj
    by_cases hc : w.closeOk j <;>
      simp [jumphost_disconnect, hj, hc]

/-- Witness for C3 (amended): closing the cached device client 0 in a world
where closes succeed clears the slot, and in a world where closes raise it
returns normally but keeps the slot; likewise for the jumphost slot. -/
theorem c3_close_behavior_witness :
    ((junos_close_connection allOkWorld cachedDeviceState).state =
      { cachedDeviceState with junosDevice := none } ∧
     (junos_close_connection closeFailWorld cachedDeviceState).result = .ok () ∧
     (junos_close_connection closeFailWorld cachedDeviceState).state = cachedDeviceState) ∧
    ((jumphost_disconnect allOkWorld cachedJumphostState).state =
      { cachedJumphostState with jumphostClient := none } ∧
     (jumphost_disconnect closeFailWorld cachedJumphostState).result = .ok () ∧
     (jumphost_disconnect closeFailWorld cachedJumphostState).state = cachedJumphostState) := by
  refine ⟨⟨?_, ?_, ?_⟩, ⟨?_, ?_, ?_⟩⟩
  · exact ((c3_close_behavior allOkWorld cachedDeviceState).1 0 rfl).2.2.1 rfl
  · exact ((c3_close_behavior closeFailWorld cachedDeviceState).1 0 rfl).1
  · exact (((c3_close_behavior closeFailWorld cachedDeviceState).1 0 rfl).2.2.2 rfl).1
  · exact ((c3_close_behavior allOkWorld cachedJumphostState).2 0 rfl).2.2.1 rfl
  · exact ((c3_close_behavior closeFailWorld cachedJumphostState).2 0 rfl).1
  · exact (((c3_close_behavior closeFailWorld cachedJumphostState).2 0 rfl).2.2.2 rfl).1

/-- Counterexample to C4 as stated: `jumphost_transport_disconnect` on the
freshly initialised manager (no cached handle at all) emits no event — in
particular it logs no warning, contradicting "every close/disconnect operation
logs a warning". -/
theorem c4_counterexample :
    (jumphost_transport_disconnect allOkWorld initState).events = ([] : List Ev) ∧
    (jumphost_transport_disconnect allOkWorld initState).events.any isWarningEv = false := by
  exact ⟨rfl, rfl⟩

/-- C4 (amended): with no corresponding handle cached, `junos_close_connection`
and `jumphost_disconnect` log a warning, do not raise and leave the state
unchanged, while `jumphost_transport_disconnect` does not raise and leaves the
state unchanged but emits nothing at all (no warning). -/
theorem c4_close_no_cache (w : World) (s : NwState) :
    (s.junosDevice = none →
      junos_close_connection w s =
        ⟨.ok (), s, [.logWarning "No active Junos connection to close"]⟩) ∧
    (s.jumphostClient = none →
      jumphost_disconnect w s =
        ⟨.ok (), s, [.logWarning "No active jumphost connection to close"]⟩) ∧
    (s.targetClient = none → s.jumphostClient = none →
      jumphost_transport_disconnect w s = ⟨.ok (), s, []⟩) := by
  refine ⟨?_, ?_, ?_⟩
  · intro h; simp [junos_close_connection, h]
  · intro h; simp [jumphost_disconnect, h]
  · intro ht hj; simp [jumphost_transport_disconnect, ht, hj]

/-- Witness for C4 (amended) on the freshly initialised manager in a world
where closes would raise if attempted. -/
theorem c4_close_no_cache_witness :
    junos_close_connection closeFailWorld initState =
      ⟨.ok (), initState, [.logWarning "No active Junos connection to close"]⟩ ∧
    jumphost_disconnect closeFailWorld initState =
      ⟨.ok (), initState, [.logWarning "No active jumphost connection to close"]⟩ ∧
    jumphost_transport_disconnect closeFailWorld initState = ⟨.ok (), initState, []⟩ :=
  ⟨(c4_close_no_cache closeFailWorld initState).1 rfl,
   (c4_close_no_cache closeFailWorld initState).2.1 rfl,
   (c4_close_no_cache closeFailWorld initState).2.2 rfl rfl⟩

/-- C9: whenever `jumphost_transport_connect` raises — whatever the failing
step and whatever happens in the cleanup — the two cached slots
`_target_client` and `_jumphost_client` hold exactly the values they held
before the call: the slots are assigned only after the target connect has
succeeded, so a failed call never leaves a partially cached tunnel. -/
theorem c9_failure_preserves_slots (w : World) (s : NwState) (dst_host : Option String)
    (e : Err) (h : (jumphost_transport_connect w s dst_host).result = .error e) :
    (jumphost_transport_connect w s dst_host).state.targetClient = s.targetClient ∧
    (jumphost_transport_connect w s dst_host).state.jumphostClient = s.jumphostClient := by
  by_cases hd : pyFalsyS dst_host
  · simp [jumphost_transport_connect, hd]
  · rcases ht : s.targetClient with _ | t <;> rcases hj : s.jumphostClient with _ | j
    · rcases hc1 : w.sshConnect s.nextId with _ | e1
      · by_cases hch : w.openChannelOk
        · rcases hc2 : w.sshConnect (s.nextId + 1) with _ | e2
          · simp [jumphost_transport_connect, hd, ht, hj, hc1, hch, hc2] at h
          · simp [jumphost_transport_connect, hd, ht, hj, hc1, hch, hc2]
        · simp [jumphost_transport_connect, hd, ht, hj, hc1, hch]
      · simp [jumphost_transport_connect, hd, ht, hj, hc1]
    · rcases hc1 : w.sshConnect s.nextId with _ | e1
      · by_cases hch : w.openChannelOk
        · rcases hc2 : w.sshConnect (s.nextId + 1) with _ | e2
          · simp [jumphost_transport_connect, hd, ht, hj, hc1, hch, hc2] at h
          · simp [jumphost_transport_connect, hd, ht, hj, hc1, hch, hc2]
        · simp [jumphost_transport_connect, hd, ht, hj, hc1, hch]
      · simp [jumphost_transport_connect, hd, ht, hj, hc1]
    · rcases hc1 : w.sshConnect s.nextId with _ | e1
      · by_cases hch : w.openChannelOk
        · rcases hc2 : w.sshConnect (s.nextId + 1) with _ | e2
          · simp [jumphost_transport_connect, hd, ht, hj, hc1, hch, hc2] at h
          · simp [jumphost_transport_connect, hd, ht, hj, hc1, hch, hc2]
        · simp [jumphost_transport_connect, hd, ht, hj, hc1, hch]
      · simp [jumphost_transport_connect, hd, ht, hj, hc1]
    · simp [jumphost_transport_connect, hd, ht, hj] at h

/-- Witness for C9: starting from a state whose only cached handle is jumphost
client 0, the tunnel connect in `tunnelFailWorld` fails (target close raising
on top of the target connect failure) and both slots are untouched. -/
theorem c9_failure_preserves_slots_witness :
    (jumphost_transport_connect tunnelFailWorld cachedJumphostState (some "target")).result =
      .error (.closeError 1) ∧
    (jumphost_transport_connect tunnelFailWorld cachedJumphostState
        (some "target")).state.targetClient = cachedJumphostState.targetClient ∧
    (jumphost_transport_connect tunnelFailWorld cachedJumphostState
        (some "target")).state.jumphostClient = cachedJumphostState.jumphostClient :=
  ⟨rfl,
   (c9_failure_preserves_slots tunnelFailWorld cachedJumphostState (some "target")
     (.closeError 1) rfl).1,
   (c9_failure_preserves_slots tunnelFailWorld cachedJumphostState (some "target")
     (.closeError 1) rfl).2⟩

/-- C10: when the jumphost slot is cached but the target slot is not, a
successful `jumphost_transport_connect` with non-empty `dst_host` does not
reuse the cached jumphost session: it performs a fresh jumphost connect
(client `s.nextId`, distinct from the cached client `j`), overwrites
`_jumphost_client` with the new handle, and never calls `close()` on the
previously cached client, which is left open and unreferenced. -/
theorem c10_stale_jumphost_overwritten (w : World) (s : NwState) (dst_host : Option String)
    (j : Nat) (hj : s.jumphostClient = some j) (ht : s.targetClient = none)
    (hd : pyFalsyS dst_host = false) (hfresh : j < s.nextId)
    (hc1 : w.sshConnect s.nextId = none) (hch : w.openChannelOk = true)
    (hc2 : w.sshConnect (s.nextId + 1) = none) :
    (jumphost_transport_connect w s dst_host).result = .ok (s.nextId + 1, s.nextId) ∧
    (jumphost_transport_connect w s dst_host).state.jumphostClient = some s.nextId ∧
    s.nextId ≠ j ∧
    Ev.connectAttempt s.nextId ∈ (jumphost_transport_connect w s dst_host).events ∧
    Ev.closeAttempt j ∉ (jumphost_transport_connect w s dst_host).events ∧
    (jumphost_transport_connect w s dst_host).state.targetClient = some (s.nextId + 1) := by
  refine ⟨?_, ?_, (Nat.ne_of_lt hfresh).symm, ?_, ?_, ?_⟩ <;>
    simp [jumphost_transport_connect, hd, ht, hj, hc1, hch, hc2]

/-- Witness for C10: from the state caching only jumphost client 0 (counter at
1), a successful tunnel connect returns the fresh pair (2, 1), repoints the
jumphost slot at client 1 ≠ 0, and never closes client 0. -/
theorem c10_stale_jumphost_overwritten_witness :
    (jumphost_transport_connect allOkWorld cachedJumphostState (some "target")).result =
      .ok (2, 1) ∧
    (jumphost_transport_connect allOkWorld cachedJumphostState
        (some "target")).state.jumphostClient = some 1 ∧
    (1 : Nat) ≠ 0 ∧
    Ev.connectAttempt 1 ∈
      (jumphost_transport_connect allOkWorld cachedJumphostState (some "target")).events ∧
    Ev.closeAttempt 0 ∉
      (jumphost_transport_connect allOkWorld cachedJumphostState (some "target")).events ∧
    (jumphost_transport_connect allOkWorld cachedJumphostState
        (some "target")).state.targetClient = some 2 :=
  c10_stale_jumphost_overwritten allOkWorld cachedJumphostState (some "target") 0
    rfl rfl rfl (by decide) rfl rfl rfl

/-- Counterexample to C1 as stated: in `tunnelFailWorld` the target connect of
the tunnel fails with `authenticationException` and the `target.close()` of the
cleanup itself raises. The call then propagates the close error instead of the
original error, and never attempts `jumphost.close()` (no `closeAttempt 0`
event), contradicting both "the original error is what propagates" and "a
failure in closing one session does not prevent the attempt to close the
other". -/
theorem c1_counterexample :
    (jumphost_transport_connect tunnelFailWorld initState (some "target")).result =
      .error (.closeError 1) ∧
    (jumphost_transport_connect tunnelFailWorld initState (some "target")).result ≠
      .error .authenticationException ∧
    Ev.closeAttempt 0 ∉
      (jumphost_transport_connect tunnelFailWorld initState (some "target")).events := by
  have h1 : (jumphost_transport_connect tunnelFailWorld initState (some "target")).result =
      .error (.closeError 1) := rfl
  refine ⟨h1, ?_, by decide⟩
  intro h
  rw [h1] at h
  exact Err.noConfusion (Except.error.inj h)

/-- C1 (amended): on failure in any of the three tunnel-construction steps, the
`except` block closes the constructed clients, target first, then jumphost.
When every attempted close succeeds, the original error propagates. When an
attempted close itself raises, that close's error propagates in place of the
original one and the remaining close is skipped: in particular, a failing
target close prevents the jumphost close from being attempted. -/
theorem c1_cleanup_behavior (w : World) (s : NwState) (dst_host : Option String)
    (hd : pyFalsyS dst_host = false)
    (hcache : s.targetClient = none ∨ s.jumphostClient = none) :
    (∀ e, w.sshConnect s.nextId = some e →
      (jumphost_transport_connect w s dst_host).result =
        .error (if w.closeOk s.nextId then e else .closeError s.nextId) ∧
      Ev.closeAttempt s.nextId ∈ (jumphost_transport_connect w s dst_host).events) ∧
    (w.sshConnect s.nextId = none → w.openChannelOk = false →
      (jumphost_transport_connect w s dst_host).result =
        .error (if w.closeOk s.nextId then .channelError else .closeError s.nextId) ∧
      Ev.closeAttempt s.nextId ∈ (jumphost_transport_connect w s dst_host).events) ∧
    (∀ e, w.sshConnect s.nextId = none → w.openChannelOk = true →
      w.sshConnect (s.nextId + 1) = some e →
      (jumphost_transport_connect w s dst_host).result =
        .error (if w.closeOk (s.nextId + 1) then
                  (if w.closeOk s.nextId then e else .closeError s.nextId)
                else .closeError (s.nextId + 1)) ∧
      Ev.closeAttempt (s.nextId + 1) ∈ (jumphost_transport_connect w s dst_host).events ∧
      (w.closeOk (s.nextId + 1) = true →
        Ev.closeAttempt s.nextId ∈ (jumphost_transport_connect w s dst_host).events) ∧
      (w.closeOk (s.nextId + 1) = false →
        Ev.closeAttempt s.nextId ∉ (jumphost_transport_connect w s dst_host).events)) := by
  rcases ht : s.targetClient with _ | t <;> rcases hj : s.jumphostClient with _ | j
  · refine ⟨fun e hc1 => ?_, fun hc1 hch => ?_, fun e hc1 hch hc2 => ?_⟩ <;>
      (by_cases hk1 : w.closeOk s.nextId = true <;>
        by_cases hk2 : w.closeOk (s.nextId + 1) = true <;>
          simp_all [jumphost_transport_connect, tunnelCleanup])
  · refine ⟨fun e hc1 => ?_, fun hc1 hch => ?_, fun e hc1 hch hc2 => ?_⟩ <;>
      (by_cases hk1 : w.closeOk s.nextId = true <;>
        by_cases hk2 : w.closeOk (s.nextId + 1) = true <;>
          simp_all [jumphost_transport_connect, tunnelCleanup])
  · refine ⟨fun e hc1 => ?_, fun hc1 hch => ?_, fun e hc1 hch hc2 => ?_⟩ <;>
      (by_cases hk1 : w.closeOk s.nextId = true <;>
        by_cases hk2 : w.closeOk (s.nextId + 1) = true <;>
          simp_all [jumphost_transport_connect, tunnelCleanup])
  · rcases hcache with hx | hx
    · rw [ht] at hx; exact Option.noConfusion hx
    · rw [hj] at hx; exact Option.noConfusion hx

/-- Witness for C1 (amended): the target-connect failure in `tunnelFailWorld`
with a failing target close propagates `closeError 1`, attempts the target
close and skips the jumphost close. -/
theorem c1_cleanup_behavior_witness :
    (jumphost_transport_connect tunnelFailWorld initState (some "target")).result =
      .error (.closeError 1) ∧
    Ev.closeAttempt 1 ∈
      (jumphost_transport_connect tunnelFailWorld initState (some "target")).events ∧
    Ev.closeAttempt 0 ∉
      (jumphost_transport_connect tunnelFailWorld initState (some "target")).events := by
  have h := (c1_cleanup_behavior tunnelFailWorld initState (some "target") rfl
      (Or.inl rfl)).2.2 Err.authenticationException rfl rfl rfl
  refine ⟨?_, h.2.1, h.2.2.2 rfl⟩
  simpa [tunnelFailWorld, initState] using h.1

/-- Helper for C6: a required field with a falsy value contributes its name to
the `missing` list of `send_email`. -/
theorem mem_missingFields
    (email_from email_to email_subject greeting email_body : Option String)
    (name : String) (v : Option String)
    (hmem : (name, v) ∈ requiredFields email_from email_to email_subject greeting email_body)
    (hv : pyFalsyS v = true) :
    name ∈ missingFields email_from email_to email_subject greeting email_body := by
  simp only [missingFields, List.mem_map, List.mem_filter]
  exact ⟨(name, v), ⟨hmem, hv⟩, rfl⟩

/-- C6: when one or more of the five required fields of `send_email` is empty
(or absent), the call raises a `ValueError` built from the `missing` list,
nothing is attached and nothing is delivered, and the `missing` list contains
the name of every empty field among the five, not only the first. -/
theorem c6_missing_email_fields (w : World)
    (email_from email_to email_subject email_body greeting : Option String)
    (destination_path : Option String) (attach_list : Option (List String))
    (h : pyFalsyS email_from = true ∨ pyFalsyS email_to = true ∨
         pyFalsyS email_subject = true ∨ pyFalsyS greeting = true ∨
         pyFalsyS email_body = true) :
    (send_email w email_from email_to email_subject email_body greeting
        destination_path attach_list).raised =
      some (.valueError ("Missing required email parameters: " ++
        String.intercalate ", "
          (missingFields email_from email_to email_subject greeting email_body))) ∧
    (send_email w email_from email_to email_subject email_body greeting
        destination_path attach_list).delivered = false ∧
    (send_email w email_from email_to email_subject email_body greeting
        destination_path attach_list).attached = [] ∧
    (pyFalsyS email_from = true →
      "email_from" ∈ missingFields email_from email_to email_subject greeting email_body) ∧
    (pyFalsyS email_to = true →
      "email_to" ∈ missingFields email_from email_to email_subject greeting email_body) ∧
    (pyFalsyS email_subject = true →
      "email_subject" ∈ missingFields email_from email_to email_subject greeting email_body) ∧
    (pyFalsyS greeting = true →
      "greeting" ∈ missingFields email_from email_to email_subject greeting email_body) ∧
    (pyFalsyS email_body = true →
      "email_body" ∈ missingFields email_from email_to email_subject greeting email_body) := by
  have hcond : (pyFalsyS email_from || pyFalsyS email_to || pyFalsyS email_subject ||
      pyFalsyS greeting || pyFalsyS email_body) = true := by
    rcases h with h | h | h | h | h <;> simp [h]
  refine ⟨by simp [send_email, hcond], by simp [send_email, hcond],
    by simp [send_email, hcond], fun hf => ?_, fun hf => ?_, fun hf => ?_,
    fun hf => ?_, fun hf => ?_⟩
  · exact mem_missingFields _ _ _ _ _ "email_from" email_from (by simp [requiredFields]) hf
  · exact mem_missingFields _ _ _ _ _ "email_to" email_to (by simp [requiredFields]) hf
  · exact mem_missingFields _ _ _ _ _ "email_subject" email_subject
      (by simp [requiredFields]) hf
  · exact mem_missingFields _ _ _ _ _ "greeting" greeting (by simp [requiredFields]) hf
  · exact mem_missingFields _ _ _ _ _ "email_body" email_body (by simp [requiredFields]) hf

/-- Witness for C6 at a call with empty `email_from`, absent `greeting` and the
other three fields present: both empty fields are named in the raised error. -/
theorem c6_missing_email_fields_witness :
    (send_email allOkWorld (some "") (some "ops@example.com") (some "report")
        (some "body text") none none none).raised =
      some (.valueError "Missing required email parameters: email_from, greeting") ∧
    "email_from" ∈ missingFields (some "") (some "ops@example.com") (some "report")
      none (some "body text") ∧
    "greeting" ∈ missingFields (some "") (some "ops@example.com") (some "report")
      none (some "body text") := by
  have h := c6_missing_email_fields allOkWorld (some "") (some "ops@example.com")
    (some "report") (some "body text") none none none (Or.inl rfl)
  exact ⟨by simpa using h.1, h.2.2.2.1 rfl, h.2.2.2.2.2.2.1 rfl⟩

/-- Helper for C7: the attachment loop attaches exactly the filenames whose
resolved path exists and warns about exactly the others. -/
theorem processAttachments_eq (p : String → Bool) (d : String) (l : List String) :
    processAttachments p d l =
      (l.filter (fun f => p (joinPath d f)), l.filter (fun f => !(p (joinPath d f)))) := by
  induction l with
  | nil => rfl
  | cons f rest ih =>
      by_cases h : p (joinPath d f) = true <;>
        simp [processAttachments, List.filter_cons, h, ih]

/-- C7: with all five required fields non-empty, an attachment directory `d`
and an attachment list containing a name `m` whose resolved path `d/m` does not
exist, `send_email` warns about and skips `m`, still attaches every name whose
resolved path exists (and nothing else), still delivers the message whenever
the relay accepts it, and returns true. -/
theorem c7_missing_attachment_skipped (w : World)
    (email_from email_to email_subject email_body greeting : Option String)
    (d : String) (l : List String) (m : String)
    (h1 : pyFalsyS email_from = false) (h2 : pyFalsyS email_to = false)
    (h3 : pyFalsyS email_subject = false) (h4 : pyFalsyS greeting = false)
    (h5 : pyFalsyS email_body = false) (hd : d.isEmpty = false)
    (hm : m ∈ l) (hmiss : w.pathExists (joinPath d m) = false)
    (hsmtp : w.smtpOk = true) :
    (send_email w email_from email_to email_subject email_body greeting
        (some d) (some l)).raised = none ∧
    (send_email w email_from email_to email_subject email_body greeting
        (some d) (some l)).returned = true ∧
    (send_email w email_from email_to email_subject email_body greeting
        (some d) (some l)).delivered = true ∧
    m ∈ (send_email w email_from email_to email_subject email_body greeting
        (some d) (some l)).warnedMissing ∧
    m ∉ (send_email w email_from email_to email_subject email_body greeting
        (some d) (some l)).attached ∧
    (send_email w email_from email_to email_subject email_body greeting
        (some d) (some l)).attached = l.filter (fun f => w.pathExists (joinPath d f)) ∧
    (send_email w email_from email_to email_subject email_body greeting
        (some d) (some l)).warnedMissing =
      l.filter (fun f => !(w.pathExists (joinPath d f))) := by
  have hl : l.isEmpty = false := by
    cases l with
    | nil => exact absurd hm (List.not_mem_nil m)
    | cons a as => rfl
  have hout : send_email w email_from email_to email_subject email_body greeting
      (some d) (some l) =
      { raised := none, returned := true,
        attached := l.filter (fun f => w.pathExists (joinPath d f)),
        warnedMissing := l.filter (fun f => !(w.pathExists (joinPath d f))),
        delivered := true } := by
    have hld : pyFalsyL (some l) = false := hl
    have hdd : pyFalsyS (some d) = false := hd
    simp [send_email, h1, h2, h3, h4, h5, hld, hdd, hsmtp, processAttachments_eq]
  refine ⟨by rw [hout], by rw [hout], by rw [hout], ?_, ?_, by rw [hout], by rw [hout]⟩
  · rw [hout]
    simp only [List.mem_filter]
    exact ⟨hm, by simp [hmiss]⟩
  · rw [hout]
    simp only [List.mem_filter]
    intro hx
    rw [hmiss] at hx
    exact Bool.noConfusion hx.2

/-- Witness for C7: sending with attachment list ["good.txt", "missing.txt"]
against directory "reports" in `attachWorld`, where only "reports/missing.txt"
is absent: the mail is delivered with exactly "good.txt" attached and
"missing.txt" warned about. -/
theorem c7_missing_attachment_skipped_witness :
    (send_email attachWorld (some "ops@example.com") (some "team@example.com")
        (some "daily report") (some "all good") (some "hello")
        (some "reports") (some ["good.txt", "missing.txt"])).raised = none ∧
    (send_email attachWorld (some "ops@example.com") (some "team@example.com")
        (some "daily report") (some "all good") (some "hello")
        (some "reports") (some ["good.txt", "missing.txt"])).returned = true ∧
    (send_email attachWorld (some "ops@example.com") (some "team@example.com")
        (some "daily report") (some "all good") (some "hello")
        (some "reports") (some ["good.txt", "missing.txt"])).delivered = true ∧
    (send_email attachWorld (some "ops@example.com") (some "team@example.com")
        (some "daily report") (some "all good") (some "hello")
        (some "reports") (some ["good.txt", "missing.txt"])).attached = ["good.txt"] ∧
    (send_email attachWorld (some "ops@example.com") (some "team@example.com")
        (some "daily report") (some "all good") (some "hello")
        (some "reports") (some ["good.txt", "missing.txt"])).warnedMissing =
      ["missing.txt"] := by
  have h := c7_missing_attachment_skipped attachWorld (some "ops@example.com")
    (some "team@example.com") (some "daily report") (some "all good") (some "hello")
    "reports" ["good.txt", "missing.txt"] "missing.txt"
    rfl rfl rfl rfl rfl rfl (by decide) (by decide) rfl
  refine ⟨h.1, h.2.1, h.2.2.1, ?_, ?_⟩
  · rw [h.2.2.2.2.2.1]; decide
  · rw [h.2.2.2.2.2.2]; decide

end NwUtilities
